import Mathlib

/-!
Shallow embedding of the OAuth2 Kratos provider (src/pkg/oauth2/kratos/provider.go)
and the users-service admin bootstrap (src/cmd/users/main.go) of DerrickKirimi/supermq,
with theorems settling the spec claims about them.

Conventions of the embedding:
* Go strings are Lean `String`; the Go zero value of a string is `""`.
* A Go pointer that may be nil is `Option`; a nil dereference is modelled as an
  explicit `panicked` outcome of the function that performs it.
* A response body is modelled after the two stages the Go code goes through:
  `io.ReadAll` may fail (`BodyRead.readErr`), and the raw bytes either form
  syntactically valid JSON (`some j` with `j` the parsed value) or not (`none`,
  on which `json.Unmarshal` reports a syntax error).
* `json.Unmarshal` into the concrete Go structs of the source is embedded by
  per-struct decoding functions following Go's rules: absent field keeps the
  zero value, `null` keeps the zero value (and leaves a pointer field nil),
  a type mismatch is an unmarshal error.
-/

/-- A parsed JSON value, the post-syntactic-parse input to `json.Unmarshal`. -/
inductive Json where
  | null : Json
  | bool (b : Bool) : Json
  | num (n : Int) : Json
  | str (s : String) : Json
  | arr (elems : List Json) : Json
  | obj (fields : List (String × Json)) : Json

/-- Field lookup in a JSON object, as `json.Unmarshal` matches struct tags. -/
def Json.lookup (j : Json) (key : String) : Option Json :=
  match j with
  | .obj fields => fields.lookup key
  | _ => none

/-- Outcome of reading a response body: `io.ReadAll` failure, or the raw bytes,
which either parse as JSON (`some`) or are syntactically invalid (`none`). -/
inductive BodyRead where
  | readErr : BodyRead
  | content (parse : Option Json) : BodyRead

/-- `oauth2.Token` restricted to its JSON string fields used by the source:
`access_token`, `refresh_token`, `token_type`. Go zero value: all `""`. -/
structure Token where
  accessToken : String
  refreshToken : String
  tokenType : String
deriving DecidableEq, Repr

/-- The zero `oauth2.Token{}` the Go code returns alongside every error. -/
def Token.zero : Token := { accessToken := "", refreshToken := "", tokenType := "" }

/-- `mfclients.Client` restricted to the fields the two source files set:
`ID`, `Name`, `Credentials.Identity`, `Credentials.Secret`, the
`oauth_provider` metadata entry, `Role` (admin or not) and `Status` (enabled). -/
structure Client where
  id : String
  name : String
  identity : String
  secret : String
  oauthProvider : String
  roleAdmin : Bool
  statusEnabled : Bool
deriving DecidableEq, Repr

/-- The zero `mfclients.Client{}` the Go code returns alongside every error. -/
def Client.zero : Client :=
  { id := "", name := "", identity := "", secret := "", oauthProvider := ""
  , roleAdmin := false, statusEnabled := false }

/-- Decode a JSON value into a Go string struct field (no pointer): a JSON
string sets the field, `null` keeps the zero value, anything else is an
unmarshal type error. -/
def decodeGoString : Json → Except Unit String
  | .str s => .ok s
  | .null => .ok ""
  | _ => .error ()

/-- Decode a JSON value into a Go `*string` field: a JSON string sets the
pointer, `null` leaves it nil, anything else is an unmarshal type error. -/
def decodeGoStringPtr : Json → Except Unit (Option String)
  | .str s => .ok (some s)
  | .null => .ok none
  | _ => .error ()

/-- Decode an optional struct field with Go semantics: absent keeps `dflt`. -/
def decodeField (j : Json) (key : String) (dflt : α) (dec : Json → Except Unit α) :
    Except Unit α :=
  match j.lookup key with
  | none => .ok dflt
  | some v => dec v

/-- The anonymous user struct of `UserDetails`:
`ID json:"sub"`, `Name json:"preferred_username"`, `Email json:"email"`. -/
structure UserInfo where
  id : String
  name : String
  email : String
deriving DecidableEq, Repr

/-- `json.Unmarshal` into the `UserDetails` user struct: the value must be a
JSON object (or `null`, keeping the zero struct); each tagged field decodes as
a Go string. -/
def unmarshalUser (j : Json) : Except Unit UserInfo :=
  match j with
  | .null => .ok { id := "", name := "", email := "" }
  | .obj _ => do
    let id ← decodeField j "sub" "" decodeGoString
    let name ← decodeField j "preferred_username" "" decodeGoString
    let email ← decodeField j "email" "" decodeGoString
    .ok { id := id, name := name, email := email }
  | _ => .error ()

/-- `ory.GenericError` restricted to the two fields `decodeError` uses:
`Message string json:"message"` and `Reason *string json:"reason,omitempty"`. -/
structure GenericError where
  message : String
  reason : Option String
deriving DecidableEq, Repr

/-- The zero `ory.GenericError`: empty message, nil reason pointer. -/
def GenericError.zero : GenericError := { message := "", reason := none }

/-- `json.Unmarshal` into `ory.GenericError`. -/
def unmarshalGenericError (j : Json) : Except Unit GenericError :=
  match j with
  | .null => .ok GenericError.zero
  | .obj _ => do
    let msg ← decodeField j "message" "" decodeGoString
    let reason ← decodeField j "reason" none decodeGoStringPtr
    .ok { message := msg, reason := reason }
  | _ => .error ()

/-- `json.Unmarshal` into the anonymous `decodeError` struct
`{ Error ory.GenericError json:"error,omitempty" }`: an absent `error` key
keeps the zero `GenericError` (whose reason pointer is nil). -/
def unmarshalErrContent (j : Json) : Except Unit GenericError :=
  match j with
  | .null => .ok GenericError.zero
  | .obj _ =>
    match j.lookup "error" with
    | none => .ok GenericError.zero
    | some v => unmarshalGenericError v
  | _ => .error ()

/-- The Go error values the provider layer produces. `readBodyErr` and
`unmarshalBodyErr` are the wrapped errors of `decodeError`'s first two
branches; `diag` is its formatted diagnostic; `authentication` is
`svcerr.ErrAuthentication`. -/
inductive GoError where
  | readBodyErr : GoError
  | unmarshalBodyErr : GoError
  | diag (msg : String) : GoError
  | authentication : GoError
deriving DecidableEq, Repr

/-- Outcome of `decodeError`: either a (always non-nil) Go error value, or a
runtime panic from dereferencing a nil pointer. -/
inductive DecodeOutcome where
  | errv (e : GoError) : DecodeOutcome
  | panicked : DecodeOutcome
deriving DecidableEq, Repr

/-- `decodeError(response *http.Response)` of provider.go lines 198-212.
The argument is `none` when the `*http.Response` pointer is nil (then
`response.Body` dereferences nil: panic). Reading the body may fail; a
syntactically invalid body is an unmarshal error; otherwise the content struct
is decoded and the final `fmt.Errorf` dereferences `*content.Error.Reason`,
panicking when that pointer is nil. -/
def decodeError (response : Option BodyRead) : DecodeOutcome :=
  match response with
  | none => .panicked
  | some .readErr => .errv .readBodyErr
  | some (.content none) => .errv .unmarshalBodyErr
  | some (.content (some j)) =>
    match unmarshalErrContent j with
    | .error _ => .errv .unmarshalBodyErr
    | .ok content =>
      match content.reason with
      | none => .panicked
      | some r => .errv (.diag ("error: " ++ content.message ++ ", reason: " ++ r))

/-- Outcome of the ory introspection call in `Validate`: the call either
succeeds with the introspected token's `Active` flag, or fails carrying the
(possibly nil) `*http.Response` handed to `decodeError`. -/
inductive IntrospectOutcome where
  | succeeded (active : Bool) : IntrospectOutcome
  | failed (resp : Option BodyRead) : IntrospectOutcome

/-- Result of `Validate`: nil error (success), a Go error, or a panic
propagated from `decodeError`. -/
inductive ValidateResult where
  | success : ValidateResult
  | failure (e : GoError) : ValidateResult
  | panicked : ValidateResult
deriving DecidableEq, Repr

/-- `Validate` of provider.go lines 147-157: on introspection error, return
`decodeError(resp)`; on an inactive token, `svcerr.ErrAuthentication`;
otherwise nil. -/
def Validate (out : IntrospectOutcome) : ValidateResult :=
  match out with
  | .failed resp =>
    match decodeError resp with
    | .panicked => .panicked
    | .errv e => .failure e
  | .succeeded false => .failure .authentication
  | .succeeded true => .success

/-- Whether a `Validate` outcome is a returned (non-nil) Go error value — as
opposed to success or a runtime panic, neither of which surfaces an error to
the caller. -/
def ValidateResult.isError : ValidateResult → Bool
  | .failure _ => true
  | _ => false

/-- The context a Go HTTP request is issued under: the caller-supplied `ctx`
argument, or `context.Background()` (what `http.Get` and plain
`http.NewRequest` attach). -/
inductive CtxMode where
  | callerCtx : CtxMode
  | backgroundCtx : CtxMode
deriving DecidableEq, Repr

/-- The provider `config` of provider.go: the embedded `oauth2.Config` fields
the source reads, plus the extra fields of the struct. -/
structure ProviderConfig where
  clientID : String
  clientSecret : String
  redirectURL : String
  state : String
  baseURL : String
  uiRedirectURL : String
  errorURL : String
deriving DecidableEq, Repr

/-- `scopes` of provider.go lines 32-36. -/
def scopes : List String := ["email", "profile", "offline_access"]

/-- `userInfoEndpoint` constant of provider.go line 27. -/
def userInfoEndpoint : String := "/userinfo?access_token="

/-- `TokenEndpoint` constant of provider.go line 29; `NewProvider` sets the
oauth2 token URL to `baseURL + TokenEndpoint`. -/
def tokenEndpoint : String := "/oauth2/token"

/-- UTF-8 bytes of one character, as Go indexes a string by bytes. -/
def utf8EncodeCharNat (c : Char) : List Nat :=
  let n := c.toNat
  if n < 128 then [n]
  else if n < 2048 then [192 + n / 64, 128 + n % 64]
  else if n < 65536 then [224 + n / 4096, 128 + n / 64 % 64, 128 + n % 64]
  else [240 + n / 262144, 128 + n / 4096 % 64, 128 + n / 64 % 64, 128 + n % 64]

/-- UTF-8 byte sequence of a Go string. -/
def utf8Bytes (s : String) : List Nat :=
  (s.data.map utf8EncodeCharNat).flatten

/-- The base64 standard alphabet, as `base64.StdEncoding`. -/
def base64Alphabet : List Char :=
  "ABCDEFGHIJKLMNOPQRSTUVWXYZabcdefghijklmnopqrstuvwxyz0123456789+/".data

/-- Character of the base64 alphabet at a 6-bit index. -/
def b64Char (n : Nat) : Char := base64Alphabet.getD n 'A'

/-- `base64.StdEncoding.EncodeToString` over a byte list: 3-byte groups become
4 alphabet characters, with `=` padding for a 1- or 2-byte tail. -/
def base64Encode : List Nat → String
  | [] => ""
  | [a] => String.mk [b64Char (a / 4), b64Char (a % 4 * 16), '=', '=']
  | [a, b] => String.mk [b64Char (a / 4), b64Char (a % 4 * 16 + b / 16), b64Char (b % 16 * 4), '=']
  | a :: b :: c :: rest =>
    String.mk [b64Char (a / 4), b64Char (a % 4 * 16 + b / 16),
               b64Char (b % 16 * 4 + c / 64), b64Char (c % 64)] ++ base64Encode rest

/-- `basicAuth(id, secret)` of provider.go lines 193-196:
base64 of the UTF-8 bytes of `id + ":" + secret`. -/
def basicAuth (id secret : String) : String :=
  base64Encode (utf8Bytes (id ++ ":" ++ secret))

/-- Hex digit (uppercase), as Go's `url.QueryEscape` emits. -/
def hexDigit (n : Nat) : Char := "0123456789ABCDEF".data.getD n '0'

/-- Whether a byte is kept verbatim by Go's `url.QueryEscape`:
alphanumerics and `-`, `_`, `.`, `~`. -/
def isUnescapedByte (b : Nat) : Bool :=
  (65 ≤ b && b ≤ 90) || (97 ≤ b && b ≤ 122) || (48 ≤ b && b ≤ 57) ||
  b == 45 || b == 95 || b == 46 || b == 126

/-- Go's `url.QueryEscape`: spaces become `+`, unreserved bytes stay, every
other byte becomes `%XX` with uppercase hex. -/
def queryEscape (s : String) : String :=
  String.mk ((utf8Bytes s).foldr
    (fun b acc =>
      if b == 32 then '+' :: acc
      else if isUnescapedByte b then Char.ofNat b :: acc
      else '%' :: hexDigit (b / 16) :: hexDigit (b % 16) :: acc) [])

/-- An outbound HTTP request as the source constructs it: method, URL, body,
the `Authorization` and `Content-Type` headers, and the context it is issued
under. -/
structure HttpRequest where
  method : String
  url : String
  body : String
  authHeader : Option String
  contentType : Option String
  ctx : CtxMode
deriving DecidableEq, Repr

/-- The identity-endpoint GET of `UserDetails` (provider.go line 104):
`http.Get(cfg.baseURL + userInfoEndpoint + url.QueryEscape(token.AccessToken))`.
`http.Get` issues the request under `context.Background()`, not the caller's
`ctx`. -/
def userInfoRequest (cfg : ProviderConfig) (accessToken : String) : HttpRequest :=
  { method := "GET"
  , url := cfg.baseURL ++ userInfoEndpoint ++ queryEscape accessToken
  , body := ""
  , authHeader := none
  , contentType := none
  , ctx := .backgroundCtx }

/-- A flag character of a Go `fmt` directive: `+`, `-`, `#`, space, `0`. -/
def isFmtFlag (c : Char) : Bool :=
  c == '+' || c == '-' || c == '#' || c == ' ' || c == '0'

/-- Go's `fmt.Sprintf` applied to a format string with NO operands (the call
shape of provider.go line 160): characters are copied until `%`; a directive's
flags, numeric width, and precision are parsed and discarded; `%%` emits `%`;
any other verb has no operand left, so `fmt` emits `%!` + verb + `(MISSING)`;
a `%` ending the string emits `%!(NOVERB)`. (Operand-consuming widths `%*d`
and argument indexes `%[1]d` never arise with zero operands' well-formed use
and are not modelled.) The boolean is true while inside a directive. -/
def sprintfAux : Bool → List Char → List Char
  | false, [] => []
  | false, c :: rest =>
    if c = '%' then sprintfAux true rest else c :: sprintfAux false rest
  | true, [] => "%!(NOVERB)".data
  | true, c :: rest =>
    if isFmtFlag c || c.isDigit || c = '.' then sprintfAux true rest
    else if c = '%' then '%' :: sprintfAux false rest
    else '%' :: '!' :: c :: ("(MISSING)".data ++ sprintfAux false rest)

/-- `fmt.Sprintf(s)` with no further arguments, as a `String` function. -/
def sprintfNoOperands (s : String) : String :=
  String.mk (sprintfAux false s.data)

/-- Whether `pat` occurs as a contiguous substring of `l` (used to state what
the wire body does and does not contain). -/
def hasSubstring (pat : List Char) : List Char → Bool
  | [] => pat.isEmpty
  | c :: rest => pat.isPrefixOf (c :: rest) || hasSubstring pat rest

/-- The form body `Refresh` builds (provider.go line 160):
`fmt.Sprintf("grant_type=refresh_token&refresh_token=" + token + "&scope=" + strings.Join(scopes, "%20"))`
— the fully concatenated string is used as a format string with no operands,
so the `%20` delimiters inside it are parsed as directives (`%` + width 20 +
verbs `p`/`o`) and mangled to `%!p(MISSING)` / `%!o(MISSING)` on the wire. -/
def refreshPayload (token : String) : String :=
  sprintfNoOperands ("grant_type=refresh_token&refresh_token=" ++ token ++
    "&scope=" ++ String.intercalate "%20" scopes)

/-- The token-endpoint POST `Refresh` constructs (provider.go lines 160-169):
built with plain `http.NewRequest`, so it is issued under
`context.Background()`, not the caller's `ctx`; its only deadline is the
client's fixed one-minute timeout. -/
def refreshRequest (cfg : ProviderConfig) (token : String) : HttpRequest :=
  { method := "POST"
  , url := cfg.baseURL ++ tokenEndpoint
  , body := refreshPayload token
  , authHeader := some ("Basic " ++ basicAuth cfg.clientID cfg.clientSecret)
  , contentType := some "application/x-www-form-urlencoded"
  , ctx := .backgroundCtx }

/-- An HTTP response as the source consumes it: status code and body. -/
structure HttpResp where
  status : Nat
  body : BodyRead

/-- `json.Unmarshal` into `oauth2.Token` (string fields `access_token`,
`refresh_token`, `token_type`). -/
def unmarshalToken (j : Json) : Except Unit Token :=
  match j with
  | .null => .ok Token.zero
  | .obj _ => do
    let access ← decodeField j "access_token" "" decodeGoString
    let refresh ← decodeField j "refresh_token" "" decodeGoString
    let typ ← decodeField j "token_type" "" decodeGoString
    .ok { accessToken := access, refreshToken := refresh, tokenType := typ }
  | _ => .error ()

/-- Errors `Refresh` can return: a request-construction or transport error
returned as-is, `svcerr.ErrAuthentication` on a non-200 status, a body read
error, or a JSON unmarshal error. -/
inductive RefreshErr where
  | transport : RefreshErr
  | authentication : RefreshErr
  | readErr : RefreshErr
  | decodeErr : RefreshErr
deriving DecidableEq, Repr

/-- `Refresh` of provider.go lines 159-191, as a function of the response the
token endpoint gives to `refreshRequest` (`none` = transport failure of
`client.Do`): non-200 status is `ErrAuthentication` with the zero token;
otherwise the body is read and unmarshalled into an `oauth2.Token`, which is
returned as-is — no field of the decoded token is checked. -/
def Refresh (resp : Option HttpResp) : Except RefreshErr Token :=
  match resp with
  | none => .error .transport
  | some r =>
    if r.status ≠ 200 then .error .authentication
    else
      match r.body with
      | .readErr => .error .readErr
      | .content none => .error .decodeErr
      | .content (some j) =>
        match unmarshalToken j with
        | .error _ => .error .decodeErr
        | .ok tokenData => .ok tokenData

/-- `providerName` constant of provider.go line 25. -/
def providerName : String := "kratos"

/-- Errors `UserDetails` can return: the exchange error returned as-is,
`svcerr.ErrAuthentication`, the `http.Get` transport error, a body read error,
or a JSON unmarshal error. -/
inductive UDErr where
  | exchangeErr : UDErr
  | authentication : UDErr
  | transportErr : UDErr
  | readErr : UDErr
  | decodeErr : UDErr
deriving DecidableEq, Repr

/-- The Go return triple of `UserDetails`: `(mfclients.Client, oauth2.Token, error)`.
`err = none` is the nil error (success). -/
structure UDResult where
  client : Client
  token : Token
  err : Option UDErr
deriving DecidableEq, Repr

/-- `UserDetails` of provider.go lines 95-145, as a function of the outcome of
`cfg.config.Exchange` and of the response the identity endpoint gives to
`userInfoRequest` (`none` = transport failure of `http.Get`). Every error
branch returns the zero client and zero token; success builds the account
record from the parsed identity with `oauth_provider = kratos` metadata and
enabled status, returning it with the exchanged token. -/
def UserDetails (exchange : Except Unit Token) (resp : Option HttpResp) : UDResult :=
  match exchange with
  | .error _ => { client := Client.zero, token := Token.zero, err := some .exchangeErr }
  | .ok token =>
    if token.refreshToken = "" then
      { client := Client.zero, token := Token.zero, err := some .authentication }
    else
      match resp with
      | none => { client := Client.zero, token := Token.zero, err := some .transportErr }
      | some r =>
        if r.status ≠ 200 then
          { client := Client.zero, token := Token.zero, err := some .authentication }
        else
          match r.body with
          | .readErr => { client := Client.zero, token := Token.zero, err := some .readErr }
          | .content none => { client := Client.zero, token := Token.zero, err := some .decodeErr }
          | .content (some j) =>
            match unmarshalUser j with
            | .error _ => { client := Client.zero, token := Token.zero, err := some .decodeErr }
            | .ok user =>
              if user.id = "" ∨ user.name = "" ∨ user.email = "" then
                { client := Client.zero, token := Token.zero, err := some .authentication }
              else
                { client :=
                    { id := user.id, name := user.name, identity := user.email
                    , secret := "", oauthProvider := providerName
                    , roleAdmin := false, statusEnabled := true }
                , token := token, err := none }

/-! ## Admin bootstrap (src/cmd/users/main.go)

The account repository, credential issuance and authorization service are
collaborators whose implementations are not under src/ (only their callers
are); they are modelled from the spec's external-interface contracts (spec
section 6) below. The functions `createAdmin`, `createAdminPolicy` and the
bootstrap tail of `newService` are embedded from the source. Each run returns
its result, the updated collaborator state, and the trace of collaborator
calls it performed. -/

/-- The `authSvc` constants used by `createAdminPolicy` (the auth package is
not under src/; names mirrored, concrete values irrelevant to the claims). -/
def userType : String := "user"

/-- `authSvc.AdministratorRelation`. -/
def administratorRelation : String := "administrator"

/-- `authSvc.MagistralaObject`. -/
def magistralaObject : String := "magistrala"

/-- `authSvc.PlatformType`. -/
def platformType : String := "platform"

/-- An authorization policy tuple, as both `AuthorizeReq` (whose `Permission`
field carries the relation) and `AddPolicyReq` (whose `Relation` field does)
describe it. -/
structure Policy where
  subjectType : String
  subject : String
  relation : String
  object : String
  objectType : String
deriving DecidableEq, Repr

/-- The tuple both calls of `createAdminPolicy` build (main.go lines 304-318):
(user, clientID, administrator, magistrala, platform). -/
def adminPolicy (clientID : String) : Policy :=
  { subjectType := userType, subject := clientID
  , relation := administratorRelation
  , object := magistralaObject, objectType := platformType }

/-- A collaborator call the bootstrap performs, recorded in run traces.
`retrieveByIdentity` and `authorize` are reads; `save`, `issueToken` and
`addPolicy` are mutations. -/
inductive Call where
  | retrieveByIdentity : Call
  | save : Call
  | issueToken : Call
  | authorize : Call
  | addPolicy : Call
deriving DecidableEq, Repr

/-- Modelled from the spec: the joint state of the account repository
(section 6: `RetrieveByIdentity`, `Save`) and authorization service
(section 6: `Authorize`, `AddPolicy`), with behaviour flags for the failure
modes the claims mention: `repoFailing` makes the identity lookup fail
transiently, `authorizeErr` makes the `Authorize` RPC itself fail, and
`addPolicyFails`/`addPolicyErr` make the `AddPolicy` call report
`added = false` or fail as an RPC. `nextId` is the id the repository assigns
to the next saved record. -/
structure World where
  repoAdmin : Option Client
  repoFailing : Bool
  policies : List Policy
  nextId : String
  authorizeErr : Bool
  addPolicyErr : Bool
  addPolicyFails : Bool
deriving DecidableEq, Repr

/-- Modelled from the spec: `RetrieveByIdentity(identity) -> record | not-found`
(section 6), with a transient-failure mode for the lookup itself. -/
def retrieveByIdentity (w : World) (identity : String) : Except Unit Client :=
  if w.repoFailing then .error ()
  else
    match w.repoAdmin with
    | some record => if record.identity = identity then .ok record else .error ()
    | none => .error ()

/-- Modelled from the spec: `Save(record) -> id | error` (section 6) — the
repository stores the record under a freshly assigned id (`w.nextId`) and
returns the stored record; the caller's copy of the record is unchanged. -/
def repoSave (w : World) (c : Client) : Except Unit Client × World :=
  let stored := { c with id := w.nextId }
  (.ok stored, { w with repoAdmin := some stored })

/-- Modelled from the spec: `IssueToken(identity, secret, scope) -> token | error`
(section 6); issuance succeeds in this model — its failure path returns the
error unchanged and is not at issue in any claim. -/
def issueToken (_identity _secret _scope : String) : Except Unit String :=
  .ok ""

/-- Modelled from the spec: `Authorize(...) -> authorized:boolean` (section 6),
true iff the tuple is held by the authorization service (section 4.6: "ask the
authorization service whether the account already holds the administrator
relation"); `authorizeErr` models the RPC itself failing. -/
def authorize (w : World) (p : Policy) : Except Unit Bool :=
  if w.authorizeErr then .error () else .ok (w.policies.contains p)

/-- Modelled from the spec: `AddPolicy(...) -> added:boolean` (section 6) — on
success the tuple is added and `added = true` is reported; `addPolicyFails`
models the service reporting the grant was not added, `addPolicyErr` the RPC
itself failing. -/
def addPolicy (w : World) (p : Policy) : Except Unit (Bool × World) :=
  if w.addPolicyErr then .error ()
  else if w.addPolicyFails then .ok (false, w)
  else .ok (true, { w with policies := w.policies ++ [p] })

/-- The errors the bootstrap functions return: a repository/issuance/RPC error
propagated as-is, or `svcerr.ErrAuthorization` when `AddPolicy` reports the
grant was not added. -/
inductive BootErr where
  | retrieveOrSaveErr : BootErr
  | issueTokenErr : BootErr
  | addPolicyRPCErr : BootErr
  | authorization : BootErr
deriving DecidableEq, Repr

/-- The admin client literal of `createAdmin` (main.go lines 274-287). The Go
struct literal never sets `ID`, so it keeps the zero value `""`; the
`CreatedAt`/`UpdatedAt` timestamps are not modelled. -/
def adminClient (adminEmail adminPassword : String) : Client :=
  { id := "", name := "admin-client", identity := adminEmail
  , secret := adminPassword, oauthProvider := ""
  , roleAdmin := true, statusEnabled := true }

/-- `createAdmin` of main.go lines 273-301: if `RetrieveByIdentity` succeeds,
return the found record's id; on any lookup error, `Save` the admin client
(discarding the record the repository returns), `IssueToken`, and return
`client.ID` — the caller-side field, still the zero value `""`. -/
def createAdmin (adminEmail adminPassword : String) (w : World) :
    Except BootErr String × World × List Call :=
  let client := adminClient adminEmail adminPassword
  match retrieveByIdentity w client.identity with
  | .ok c => (.ok c.id, w, [.retrieveByIdentity])
  | .error _ =>
    match repoSave w client with
    | (.error _, w1) => (.error .retrieveOrSaveErr, w1, [.retrieveByIdentity, .save])
    | (.ok _, w1) =>
      match issueToken adminEmail adminPassword "" with
      | .error _ =>
        (.error .issueTokenErr, w1, [.retrieveByIdentity, .save, .issueToken])
      | .ok _ =>
        (.ok client.id, w1, [.retrieveByIdentity, .save, .issueToken])

/-- `createAdminPolicy` of main.go lines 303-327: `Authorize` the admin tuple;
when the call fails or reports not authorized, `AddPolicy` the same tuple —
an RPC error is returned, a reply of `added = false` is
`svcerr.ErrAuthorization`, and a reply of `added = true` is success. -/
def createAdminPolicy (clientID : String) (w : World) :
    Except BootErr Unit × World × List Call :=
  match authorize w (adminPolicy clientID) with
  | .ok true => (.ok (), w, [.authorize])
  | _ =>
    match addPolicy w (adminPolicy clientID) with
    | .error _ => (.error .addPolicyRPCErr, w, [.authorize, .addPolicy])
    | .ok (added, w1) =>
      if added then (.ok (), w1, [.authorize, .addPolicy])
      else (.error .authorization, w1, [.authorize, .addPolicy])

/-- The bootstrap tail of `newService` (main.go lines 263-269): run
`createAdmin`, abort on its error, then run `createAdminPolicy`, abort on its
error — `newService` returns an error in either case and the service is not
constructed. -/
def newServiceBootstrap (adminEmail adminPassword : String) (w : World) :
    Except BootErr String × World × List Call :=
  match createAdmin adminEmail adminPassword w with
  | (.error e, w1, t1) => (.error e, w1, t1)
  | (.ok clientID, w1, t1) =>
    match createAdminPolicy clientID w1 with
    | (.error e, w2, t2) => (.error e, w2, t1 ++ t2)
    | (.ok _, w2, t2) => (.ok clientID, w2, t1 ++ t2)

/-- Two consecutive bootstrap runs against the same collaborator state: the
second run starts from the state the first one left. -/
def twoRuns (adminEmail adminPassword : String) (w : World) :
    (Except BootErr String × Except BootErr String) × World × List Call :=
  match newServiceBootstrap adminEmail adminPassword w with
  | (r1, w1, t1) =>
    match newServiceBootstrap adminEmail adminPassword w1 with
    | (r2, w2, t2) => ((r1, r2), w2, t1 ++ t2)

/-- A collaborator state before any bootstrap: no admin record, no policies;
the repository will assign `nextId` on save, and no failure mode is active. -/
def freshWorld (nextId : String) : World :=
  { repoAdmin := none, repoFailing := false, policies := [], nextId := nextId
  , authorizeErr := false, addPolicyErr := false, addPolicyFails := false }

/-! ## Theorems settling the claims -/

/-- Claim C3 (code-bug evaluation): on the spec's scenario body
`{"error":{"message":"invalid_token","reason":"expired"}}` the normalizer
returns one diagnostic containing both fields, but on a body that parses as
the `{error: {message, reason}}` shape with the reason field absent, the
source dereferences the nil `Reason` pointer and panics instead of returning
an error value — contradicting the claim that `decodeError` returns an error
value on every body and never panics. -/
theorem decodeError_panics_on_absent_reason :
    decodeError (some (.content (some (Json.obj
      [("error", Json.obj [("message", Json.str "invalid_token"),
                           ("reason", Json.str "expired")])])))) =
      .errv (.diag "error: invalid_token, reason: expired")
    ∧ (∃ p q : String, "error: invalid_token, reason: expired" =
        p ++ "invalid_token" ++ q)
    ∧ (∃ p q : String, "error: invalid_token, reason: expired" =
        p ++ "expired" ++ q)
    ∧ decodeError (some (.content (some (Json.obj
      [("error", Json.obj [("message", Json.str "invalid_token")])])))) =
      .panicked
    ∧ decodeError (some (.content none)) = .errv .unmarshalBodyErr
    ∧ decodeError (some .readErr) = .errv .readBodyErr :=
  ⟨rfl, ⟨"error: ", ", reason: expired", rfl⟩, ⟨"error: invalid_token, reason: ", "", rfl⟩,
   rfl, rfl, rfl⟩

/-- Counterexample to claim C4: a transport failure with no response hands a
nil `*http.Response` to `decodeError`, which dereferences `response.Body` and
panics, and a failed introspection whose parseable body lacks a `reason`
field panics on the nil `Reason` pointer — in both cases `Validate` does not
surface an error value, refuting the claim that a transport failure or
malformed response still surfaces as an error. -/
theorem validate_transport_failure_panics :
    Validate (.failed none) = .panicked
    ∧ (Validate (.failed none)).isError = false
    ∧ Validate (.failed (some (.content (some (Json.obj []))))) = .panicked
    ∧ (Validate (.failed (some (.content (some (Json.obj [])))))).isError = false :=
  ⟨rfl, rfl, rfl, rfl⟩

/-- Claim C4 as amended: `Validate` succeeds if and only if the introspection
call succeeded and reported `active = true`; `active = false` yields the
authentication error; every failed introspection call is delegated to
`decodeError` and never results in silent success — when the normalizer
returns an error value `Validate` surfaces exactly that error, but when the
normalizer panics (nil response, or parseable body without a reason field)
the panic propagates and no error value is surfaced. -/
theorem validate_success_iff_active :
    (∀ out : IntrospectOutcome, Validate out = .success ↔ out = .succeeded true)
    ∧ Validate (.succeeded false) = .failure .authentication
    ∧ (∀ resp, Validate (.failed resp) ≠ .success)
    ∧ (∀ resp e, decodeError resp = .errv e → Validate (.failed resp) = .failure e)
    ∧ (∀ resp, decodeError resp = .panicked → Validate (.failed resp) = .panicked) := by
  refine ⟨?_, rfl, ?_, ?_, ?_⟩
  · intro out
    match out with
    | .succeeded true => simp [Validate]
    | .succeeded false => simp [Validate]
    | .failed resp =>
      simp only [Validate]
      cases h : decodeError resp <;> simp
  · intro resp
    simp only [Validate]
    cases h : decodeError resp <;> simp
  · intro resp e h
    simp [Validate, h]
  · intro resp h
    simp [Validate, h]

/-- Witness for the amended C4: a concrete failed introspection whose body
read fails surfaces the normalizer's read error, and one with a nil response
propagates the panic. -/
theorem validate_success_iff_active_witness :
    (decodeError (some .readErr) = .errv .readBodyErr
      ∧ Validate (.failed (some .readErr)) = .failure .readBodyErr)
    ∧ (decodeError none = .panicked
      ∧ Validate (.failed none) = .panicked) :=
  ⟨⟨rfl, validate_success_iff_active.2.2.2.1 (some .readErr) .readBodyErr rfl⟩,
   ⟨rfl, validate_success_iff_active.2.2.2.2 none rfl⟩⟩

/-- Claim C5: when the exchange succeeds with a non-empty refresh token and
the identity endpoint answers 200 with a body that parses into the user
struct, `UserDetails` succeeds iff the parsed subject id, name and email are
all non-empty; if any of the three is empty it returns the authentication
error with the zero client and zero token. -/
theorem userDetails_success_iff_fields_nonempty
    (tok : Token) (r : HttpResp) (j : Json) (u : UserInfo)
    (hrt : tok.refreshToken ≠ "")
    (hst : r.status = 200)
    (hbody : r.body = .content (some j))
    (hparse : unmarshalUser j = .ok u) :
    ((UserDetails (.ok tok) (some r)).err = none ↔
      (u.id ≠ "" ∧ u.name ≠ "" ∧ u.email ≠ ""))
    ∧ ((u.id = "" ∨ u.name = "" ∨ u.email = "") →
        UserDetails (.ok tok) (some r) =
          { client := Client.zero, token := Token.zero, err := some .authentication }) := by
  by_cases h : u.id = "" ∨ u.name = "" ∨ u.email = ""
  · constructor
    · simp [UserDetails, hrt, hst, hbody, hparse, h]
      tauto
    · intro _
      simp [UserDetails, hrt, hst, hbody, hparse, h]
  · constructor
    · simp [UserDetails, hrt, hst, hbody, hparse, h]
      tauto
    · intro hc
      exact absurd hc h

/-- Witness for C5: a concrete 200 identity response with all three fields
present succeeds, and one with an empty email fails with the authentication
error and zero record. -/
theorem userDetails_success_iff_fields_nonempty_witness :
    (({ accessToken := "at", refreshToken := "rt", tokenType := "" } : Token).refreshToken ≠ ""
      ∧ ({ status := 200
         , body := .content (some (Json.obj
            [("sub", Json.str "user-1"), ("preferred_username", Json.str "jane"),
             ("email", Json.str "jane@example.com")])) } : HttpResp).status = 200
      ∧ unmarshalUser (Json.obj
            [("sub", Json.str "user-1"), ("preferred_username", Json.str "jane"),
             ("email", Json.str "jane@example.com")]) =
          .ok { id := "user-1", name := "jane", email := "jane@example.com" })
    ∧ ((UserDetails
          (.ok { accessToken := "at", refreshToken := "rt", tokenType := "" })
          (some { status := 200
                , body := .content (some (Json.obj
                    [("sub", Json.str "user-1"), ("preferred_username", Json.str "jane"),
                     ("email", Json.str "jane@example.com")])) })).err = none ↔
        (("user-1" : String) ≠ "" ∧ ("jane" : String) ≠ ""
          ∧ ("jane@example.com" : String) ≠ "")) :=
  ⟨⟨by decide, rfl, rfl⟩,
   (userDetails_success_iff_fields_nonempty
      { accessToken := "at", refreshToken := "rt", tokenType := "" }
      { status := 200
      , body := .content (some (Json.obj
          [("sub", Json.str "user-1"), ("preferred_username", Json.str "jane"),
           ("email", Json.str "jane@example.com")])) }
      (Json.obj
          [("sub", Json.str "user-1"), ("preferred_username", Json.str "jane"),
           ("email", Json.str "jane@example.com")])
      { id := "user-1", name := "jane", email := "jane@example.com" }
      (by decide) rfl rfl rfl).1⟩

/-- Claim C7: when the exchange returns a token whose refresh token is empty,
`UserDetails` fails with the authentication error and the zero client and
zero token, for every identity-endpoint response and even when the access
token is present. -/
theorem userDetails_empty_refresh_token_fails
    (tok : Token) (resp : Option HttpResp)
    (h : tok.refreshToken = "") :
    UserDetails (.ok tok) resp =
      { client := Client.zero, token := Token.zero, err := some .authentication } := by
  simp [UserDetails, h]

/-- Witness for C7: a token with a present access token but empty refresh
token is rejected with the authentication error and zero record. -/
theorem userDetails_empty_refresh_token_fails_witness :
    ({ accessToken := "present-access-token", refreshToken := "", tokenType := "bearer" } : Token).refreshToken = ""
    ∧ UserDetails
        (.ok { accessToken := "present-access-token", refreshToken := "", tokenType := "bearer" })
        (some { status := 200, body := .content (some (Json.obj [])) }) =
      { client := Client.zero, token := Token.zero, err := some .authentication } :=
  ⟨rfl, userDetails_empty_refresh_token_fails
    { accessToken := "present-access-token", refreshToken := "", tokenType := "bearer" }
    (some { status := 200, body := .content (some (Json.obj [])) }) rfl⟩

/-- A format-string-free prefix passes through `fmt.Sprintf` with no operands
verbatim: directive processing only begins at the first `%`. -/
theorem sprintfAux_append (l2 : List Char) : ∀ (l1 : List Char), '%' ∉ l1 →
    sprintfAux false (l1 ++ l2) = l1 ++ sprintfAux false l2 := by
  intro l1
  induction l1 with
  | nil => intro _; simp
  | cons c cs ih =>
    intro h
    rw [List.mem_cons, not_or] at h
    have hc : ¬ c = '%' := fun hcc => h.1 hcc.symm
    simp only [List.cons_append, sprintfAux, hc, if_false, List.append_eq, ih h.2]

/-- String-level form of `sprintfAux_append`. -/
theorem sprintfNoOperands_append (a b : String) (h : '%' ∉ a.data) :
    sprintfNoOperands (a ++ b) = a ++ sprintfNoOperands b := by
  show String.mk (sprintfAux false (a.data ++ b.data)) = _
  rw [sprintfAux_append b.data a.data h]
  rfl

/-- Counterexample to claim C6: the wire body never contains the scope set
joined by `%20` — `fmt.Sprintf` with no operands parses the `%20p` and `%20o`
runs as directives and the body for token `rt` is
`...&scope=email%!p(MISSING)rofile%!o(MISSING)ffline_access`; moreover a
success (200) response whose body is the empty JSON object decodes without
error and `Refresh` returns it as a success whose access token is empty — the
source checks no field of the decoded token. -/
theorem refresh_scope_mangled_and_access_token_unchecked :
    refreshPayload "rt" =
      "grant_type=refresh_token&refresh_token=rt&scope=email%!p(MISSING)rofile%!o(MISSING)ffline_access"
    ∧ hasSubstring "%20".data (refreshPayload "rt").data = false
    ∧ Refresh (some { status := 200, body := .content (some (Json.obj [])) }) =
        .ok { accessToken := "", refreshToken := "", tokenType := "" }
    ∧ ({ accessToken := "", refreshToken := "", tokenType := "" } : Token).accessToken = "" :=
  ⟨rfl, by decide, rfl, rfl⟩

/-- Claim C6 as amended: the body `Refresh` constructs is the concatenation
of `grant_type=refresh_token`, the refresh token, and the fixed scope set
joined by `%20`, passed through `fmt.Sprintf` with no operands — which
mangles the two `%20` delimiters to `%!p(MISSING)` / `%!o(MISSING)`, so for
any refresh token free of `%` the wire body ends in
`&scope=email%!p(MISSING)rofile%!o(MISSING)ffline_access`; the request
carries an Authorization header of `"Basic "` followed by base64 of
`clientID:clientSecret`; a non-success status yields the authentication
error, and a success status returns whatever token the body decodes to (its
access token is not checked and may be empty). -/
theorem refresh_request_shape_and_status (cfg : ProviderConfig) (tok : String)
    (htok : '%' ∉ tok.data) :
    (refreshRequest cfg tok).body =
      "grant_type=refresh_token&refresh_token=" ++ tok ++
        "&scope=email%!p(MISSING)rofile%!o(MISSING)ffline_access"
    ∧ (refreshRequest cfg tok).body =
        sprintfNoOperands ("grant_type=refresh_token&refresh_token=" ++ tok ++
          "&scope=" ++ String.intercalate "%20" scopes)
    ∧ String.intercalate "%20" scopes = "email%20profile%20offline_access"
    ∧ sprintfNoOperands "email%20profile%20offline_access" =
        "email%!p(MISSING)rofile%!o(MISSING)ffline_access"
    ∧ (refreshRequest cfg tok).authHeader =
        some ("Basic " ++ base64Encode (utf8Bytes (cfg.clientID ++ ":" ++ cfg.clientSecret)))
    ∧ (refreshRequest cfg tok).contentType = some "application/x-www-form-urlencoded"
    ∧ (∀ r : HttpResp, r.status ≠ 200 → Refresh (some r) = .error .authentication)
    ∧ (∀ (r : HttpResp) (j : Json) (t : Token), r.status = 200 →
        r.body = .content (some j) → unmarshalToken j = .ok t →
        Refresh (some r) = .ok t) := by
  refine ⟨?_, rfl, rfl, rfl, rfl, rfl, ?_, ?_⟩
  · have hI : ("grant_type=refresh_token&refresh_token=" ++ tok ++ "&scope=" ++
        String.intercalate "%20" scopes)
        = ("grant_type=refresh_token&refresh_token=" ++ tok ++ "&scope=") ++
            "email%20profile%20offline_access" := rfl
    show sprintfNoOperands ("grant_type=refresh_token&refresh_token=" ++ tok ++
      "&scope=" ++ String.intercalate "%20" scopes) = _
    rw [hI]
    have hfree : '%' ∉ ("grant_type=refresh_token&refresh_token=" ++ tok ++ "&scope=").data := by
      show '%' ∉ ("grant_type=refresh_token&refresh_token=".data ++ tok.data) ++ "&scope=".data
      intro hmem
      rcases List.mem_append.mp hmem with h1 | h2
      · rcases List.mem_append.mp h1 with ha | ht
        · exact absurd ha (by decide)
        · exact htok ht
      · exact absurd h2 (by decide)
    rw [sprintfNoOperands_append _ _ hfree]
    have hm : sprintfNoOperands "email%20profile%20offline_access" =
        "email%!p(MISSING)rofile%!o(MISSING)ffline_access" := rfl
    rw [hm, String.append_assoc]
    rfl
  · intro r h
    simp [Refresh, h]
  · intro r j t hst hbody hparse
    simp [Refresh, hst, hbody, hparse]

/-- Witness for the amended C6: the `%`-free token `rt` gives exactly the
mangled wire body, concrete credentials give the expected Basic header
(base64 of `id:secret` is `aWQ6c2VjcmV0`), a 401 response is the
authentication error, and a 200 response with an access-token body decodes to
that token. -/
theorem refresh_request_shape_and_status_witness :
    ('%' ∉ ("rt" : String).data
      ∧ (refreshRequest
          { clientID := "id", clientSecret := "secret", redirectURL := "", state := ""
          , baseURL := "http://localhost:4433", uiRedirectURL := "", errorURL := "" }
          "rt").body =
        "grant_type=refresh_token&refresh_token=" ++ "rt" ++
          "&scope=email%!p(MISSING)rofile%!o(MISSING)ffline_access")
    ∧ (refreshRequest
        { clientID := "id", clientSecret := "secret", redirectURL := "", state := ""
        , baseURL := "http://localhost:4433", uiRedirectURL := "", errorURL := "" }
        "rt").authHeader = some ("Basic " ++ base64Encode (utf8Bytes ("id" ++ ":" ++ "secret")))
    ∧ base64Encode (utf8Bytes ("id" ++ ":" ++ "secret")) = "aWQ6c2VjcmV0"
    ∧ ((401 : Nat) ≠ 200
        ∧ Refresh (some { status := 401, body := .content none }) = .error .authentication)
    ∧ Refresh (some { status := 200
                    , body := .content (some (Json.obj [("access_token", Json.str "new-at")])) }) =
        .ok { accessToken := "new-at", refreshToken := "", tokenType := "" } :=
  ⟨⟨by decide,
    (refresh_request_shape_and_status
      { clientID := "id", clientSecret := "secret", redirectURL := "", state := ""
      , baseURL := "http://localhost:4433", uiRedirectURL := "", errorURL := "" } "rt"
      (by decide)).1⟩,
   (refresh_request_shape_and_status
      { clientID := "id", clientSecret := "secret", redirectURL := "", state := ""
      , baseURL := "http://localhost:4433", uiRedirectURL := "", errorURL := "" } "rt"
      (by decide)).2.2.2.2.1,
   by decide,
   ⟨by decide,
    (refresh_request_shape_and_status
      { clientID := "id", clientSecret := "secret", redirectURL := "", state := ""
      , baseURL := "http://localhost:4433", uiRedirectURL := "", errorURL := "" } "rt"
      (by decide)).2.2.2.2.2.2.1
      { status := 401, body := .content none } (by decide)⟩,
   (refresh_request_shape_and_status
      { clientID := "id", clientSecret := "secret", redirectURL := "", state := ""
      , baseURL := "http://localhost:4433", uiRedirectURL := "", errorURL := "" } "rt"
      (by decide)).2.2.2.2.2.2.2
      { status := 200, body := .content (some (Json.obj [("access_token", Json.str "new-at")])) }
      (Json.obj [("access_token", Json.str "new-at")])
      { accessToken := "new-at", refreshToken := "", tokenType := "" }
      rfl rfl rfl⟩

/-- Counterexample to claim C9: at a concrete configuration and token, both
the identity-endpoint GET of `UserDetails` (built with `http.Get`) and the
token-endpoint POST of `Refresh` (built with plain `http.NewRequest`) are
issued under the background context, not the caller-supplied one, so
cancelling the caller's context does not abort them. -/
theorem outbound_requests_not_under_caller_ctx :
    (userInfoRequest
        { clientID := "id", clientSecret := "secret", redirectURL := "", state := ""
        , baseURL := "http://localhost:4433", uiRedirectURL := "", errorURL := "" }
        "at").ctx = .backgroundCtx
    ∧ (refreshRequest
        { clientID := "id", clientSecret := "secret", redirectURL := "", state := ""
        , baseURL := "http://localhost:4433", uiRedirectURL := "", errorURL := "" }
        "rt").ctx = .backgroundCtx
    ∧ CtxMode.backgroundCtx ≠ CtxMode.callerCtx :=
  ⟨rfl, rfl, by decide⟩

/-- Claim C9 as amended: for every configuration and token, the
identity-endpoint GET inside `UserDetails` and the token-endpoint POST inside
`Refresh` are issued under the background context rather than the
caller-supplied one — caller cancellation does not abort either call. -/
theorem outbound_requests_use_background_ctx (cfg : ProviderConfig) (s : String) :
    (userInfoRequest cfg s).ctx = .backgroundCtx
    ∧ (refreshRequest cfg s).ctx = .backgroundCtx :=
  ⟨rfl, rfl⟩

/-- Claim C1 (code-bug evaluation): against an already-bootstrapped state the
run performs exactly the two reads `[RetrieveByIdentity, Authorize]` and no
mutation — but across two consecutive runs from an empty state, `AddPolicy`
is called twice, not at most once: the creating run returns the never-assigned
`client.ID` (empty string), so its grant is for subject `""`, and the second
run's `Authorize` on the repository-assigned id finds no grant and adds the
policy again. -/
theorem bootstrap_two_runs_addPolicy_twice :
    (newServiceBootstrap "admin@example.com" "12345678"
        { repoAdmin := some
            { id := "acc-1", name := "admin-client", identity := "admin@example.com"
            , secret := "12345678", oauthProvider := ""
            , roleAdmin := true, statusEnabled := true }
        , repoFailing := false
        , policies := [adminPolicy "acc-1"]
        , nextId := "acc-2"
        , authorizeErr := false, addPolicyErr := false, addPolicyFails := false }).2.2 =
      [.retrieveByIdentity, .authorize]
    ∧ ((twoRuns "admin@example.com" "12345678" (freshWorld "acc-1")).2.2).count .addPolicy = 2 := by
  constructor
  · rfl
  · rfl

/-- Claim C2 (code-bug evaluation): from an empty state, the run that creates
the admin account returns `client.ID`, which the source never assigns (the
record `Save` returns, carrying the repository-assigned id, is discarded), so
it yields the empty string; the subsequent run returns the stored id found by
`RetrieveByIdentity` — the two ids differ. -/
theorem createAdmin_ids_differ_across_runs :
    (twoRuns "admin@example.com" "12345678" (freshWorld "acc-1")).1.1 = .ok ""
    ∧ (twoRuns "admin@example.com" "12345678" (freshWorld "acc-1")).1.2 = .ok "acc-1"
    ∧ (Except.ok "" : Except BootErr String) ≠ .ok "acc-1" := by
  refine ⟨rfl, rfl, ?_⟩
  intro h
  simp at h

/-- Claim C8: when the admin account exists and `Authorize` reports the
relation is not held, an `AddPolicy` reply of `added = false` makes
`createAdminPolicy` fail with `svcerr.ErrAuthorization`, and the bootstrap
tail of `newService` returns that error, so service construction aborts. -/
theorem addPolicy_not_added_aborts_bootstrap
    (adminEmail adminPassword : String) (w : World) (rec : Client)
    (hrepo : w.repoAdmin = some rec)
    (hok : w.repoFailing = false)
    (hid : rec.identity = adminEmail)
    (hauth : w.authorizeErr = false)
    (hnot : adminPolicy rec.id ∉ w.policies)
    (hrpc : w.addPolicyErr = false)
    (hfail : w.addPolicyFails = true) :
    createAdminPolicy rec.id w = (.error .authorization, w, [.authorize, .addPolicy])
    ∧ (newServiceBootstrap adminEmail adminPassword w).1 = .error .authorization := by
  have hpol : createAdminPolicy rec.id w = (.error .authorization, w, [.authorize, .addPolicy]) := by
    simp [createAdminPolicy, authorize, hauth, hnot, addPolicy, hrpc, hfail]
  refine ⟨hpol, ?_⟩
  simp [newServiceBootstrap, createAdmin, adminClient, retrieveByIdentity, hok, hrepo, hid, hpol]

/-- Witness for C8: a concrete state whose `AddPolicy` reports the grant was
not added makes the bootstrap return the authorization error. -/
theorem addPolicy_not_added_aborts_bootstrap_witness :
    (newServiceBootstrap "admin@example.com" "12345678"
        { repoAdmin := some
            { id := "acc-1", name := "admin-client", identity := "admin@example.com"
            , secret := "12345678", oauthProvider := ""
            , roleAdmin := true, statusEnabled := true }
        , repoFailing := false
        , policies := []
        , nextId := "acc-2"
        , authorizeErr := false, addPolicyErr := false, addPolicyFails := true }).1 =
      .error .authorization :=
  (addPolicy_not_added_aborts_bootstrap "admin@example.com" "12345678"
    { repoAdmin := some
        { id := "acc-1", name := "admin-client", identity := "admin@example.com"
        , secret := "12345678", oauthProvider := ""
        , roleAdmin := true, statusEnabled := true }
    , repoFailing := false
    , policies := []
    , nextId := "acc-2"
    , authorizeErr := false, addPolicyErr := false, addPolicyFails := true }
    { id := "acc-1", name := "admin-client", identity := "admin@example.com"
    , secret := "12345678", oauthProvider := ""
    , roleAdmin := true, statusEnabled := true }
    rfl rfl rfl rfl (by decide) rfl rfl).2

/-- Claim C10: `createAdmin` treats every `RetrieveByIdentity` error — here a
transient lookup failure, active even though an admin record may exist — as
absence of the account, and proceeds through the mutating creation path,
calling `Save` and `IssueToken`. -/
theorem createAdmin_lookup_error_takes_creation_path
    (adminEmail adminPassword : String) (w : World)
    (h : w.repoFailing = true) :
    (createAdmin adminEmail adminPassword w).2.2 =
      [.retrieveByIdentity, .save, .issueToken]
    ∧ Call.save ∈ (createAdmin adminEmail adminPassword w).2.2
    ∧ Call.issueToken ∈ (createAdmin adminEmail adminPassword w).2.2 := by
  have ht : (createAdmin adminEmail adminPassword w).2.2 =
      [.retrieveByIdentity, .save, .issueToken] := by
    simp [createAdmin, retrieveByIdentity, h, repoSave, issueToken]
  refine ⟨ht, ?_, ?_⟩ <;> rw [ht] <;> simp

/-- Witness for C10: with the admin record already present but the lookup
failing transiently, a bootstrap run still attempts `Save` and `IssueToken`. -/
theorem createAdmin_lookup_error_takes_creation_path_witness :
    ({ repoAdmin := some
        { id := "acc-1", name := "admin-client", identity := "admin@example.com"
        , secret := "12345678", oauthProvider := ""
        , roleAdmin := true, statusEnabled := true }
     , repoFailing := true
     , policies := [adminPolicy "acc-1"]
     , nextId := "acc-2"
     , authorizeErr := false, addPolicyErr := false, addPolicyFails := false } : World).repoFailing = true
    ∧ (createAdmin "admin@example.com" "12345678"
        { repoAdmin := some
            { id := "acc-1", name := "admin-client", identity := "admin@example.com"
            , secret := "12345678", oauthProvider := ""
            , roleAdmin := true, statusEnabled := true }
        , repoFailing := true
        , policies := [adminPolicy "acc-1"]
        , nextId := "acc-2"
        , authorizeErr := false, addPolicyErr := false, addPolicyFails := false }).2.2 =
      [.retrieveByIdentity, .save, .issueToken] :=
  ⟨rfl,
   (createAdmin_lookup_error_takes_creation_path "admin@example.com" "12345678"
      { repoAdmin := some
          { id := "acc-1", name := "admin-client", identity := "admin@example.com"
          , secret := "12345678", oauthProvider := ""
          , roleAdmin := true, statusEnabled := true }
      , repoFailing := true
      , policies := [adminPolicy "acc-1"]
      , nextId := "acc-2"
      , authorizeErr := false, addPolicyErr := false, addPolicyFails := false } rfl).1⟩
